import Mathlib

/-!
Verification development for the experiences data-access layer
(`src/lib/data/index.ts`).

The TypeScript code is shallowly embedded:
  * runtime JavaScript values are modelled by `JsVal` (objects and arrays
    by their contents; an absent object key reads as `JsVal.undefined`, exactly
    as a missing property reads as `undefined` in JavaScript);
  * the remote Supabase client is an oracle `RemoteBehavior` giving the
    outcome of each query shape, and every observable interaction
    (remote calls, localStorage reads/writes, toasts) is recorded in a
    `List Effect` trace;
  * the browser localStorage key `experiences` is a `StoredBlob`
    (absent, unparsable, or a previously cached list — the only shapes the
    code itself ever writes);
  * the React state of `useExperiencesManager` is a `ManagerState` and each
    operation is an explicit state transformer.
-/

/-- Runtime JavaScript values, as far as this layer observes them: the
primitives, `NaN`, arrays, and plain objects given by their key/value list
(for parsed JSON, a later duplicate key wins). -/
inductive JsVal where
  | undefined : JsVal
  | null : JsVal
  | nan : JsVal
  | bool : Bool → JsVal
  | num : Rat → JsVal
  | str : String → JsVal
  | arr : List JsVal → JsVal
  | obj : List (String × JsVal) → JsVal

/-- JavaScript truthiness: `undefined`, `null`, `NaN`, `false`, `0` and `""`
are falsy; every other value, including `[]` and `{}`, is truthy. -/
def truthy : JsVal → Bool
  | .undefined => false
  | .null => false
  | .nan => false
  | .bool b => b
  | .num q => q != 0
  | .str s => s != ""
  | .arr _ => true
  | .obj _ => true

/-- The JavaScript `a || b` operator: `a` when truthy, else `b`. -/
def jsOr (a b : JsVal) : JsVal := if truthy a then a else b

/-- Decimal-literal part of JavaScript string-to-number conversion:
optional sign, digits with an optional fractional part. -/
def parseDecimal (s : String) : Option Rat :=
  let core : String → Option Rat := fun t =>
    match t.splitOn "." with
    | [ip] => if ip = "" then none else (ip.toNat? ).map (fun n => (n : Rat))
    | [ip, fp] =>
        if ip = "" && fp = "" then none
        else
          let i : Option Nat := if ip = "" then some 0 else ip.toNat?
          let f : Option Nat := if fp = "" then some 0 else fp.toNat?
          match i, f with
          | some iv, some fv => some ((iv : Rat) + (fv : Rat) / ((10 : Rat) ^ fp.length))
          | _, _ => none
    | _ => none
  if s.startsWith "-" then (core (s.drop 1)).map (fun q => -q)
  else if s.startsWith "+" then core (s.drop 1)
  else core s

/-- The JavaScript `Number(x)` conversion, restricted to the value shapes
that reach it here (plain decimal literals for strings; exotic string forms
and nested arrays conservatively become `NaN`). -/
def jsToNumber : JsVal → JsVal
  | .undefined => .nan
  | .null => .num 0
  | .nan => .nan
  | .bool true => .num 1
  | .bool false => .num 0
  | .num q => .num q
  | .str s =>
      let t := s.trim
      if t = "" then .num 0
      else match parseDecimal t with
        | some q => .num q
        | none => .nan
  | .arr [] => .num 0
  | .arr _ => .nan
  | .obj _ => .nan

/-- JavaScript strict equality `===` on the values compared in this layer.
Arrays and objects compare by reference in JavaScript; the comparisons in
this code are always against a fresh string, so those cases are `false`. -/
def jsStrictEq : JsVal → JsVal → Bool
  | .undefined, .undefined => true
  | .null, .null => true
  | .bool a, .bool b => a == b
  | .num a, .num b => a == b
  | .str a, .str b => a == b
  | _, _ => false

/-- Last-wins lookup of a key in an object's field list (parsed JSON keeps
the last duplicate), `undefined` when the key is missing. -/
def lookupLast (fs : List (String × JsVal)) (k : String) : JsVal :=
  (fs.foldl (fun acc p => if p.1 = k then some p.2 else acc) none).getD .undefined

/-- Property read `v[k]` for the object shapes reaching the import mapper:
objects yield the stored value (or `undefined`), other non-nullish values
yield `undefined` (primitive boxing has none of these keys). Reads on
`null`/`undefined` throw and are handled at the call site. -/
def getF (v : JsVal) (k : String) : JsVal :=
  match v with
  | .obj fs => lookupLast fs k
  | _ => .undefined

/-- One row of the remote `experiences` table as the select queries return
it (a loosely typed record; an absent column reads as `undefined`). -/
structure DbRow where
  id : JsVal := .undefined
  title : JsVal := .undefined
  description : JsVal := .undefined
  image_url : JsVal := .undefined
  price : JsVal := .undefined
  location : JsVal := .undefined
  latitude : JsVal := .undefined
  longitude : JsVal := .undefined
  duration : JsVal := .undefined
  participants : JsVal := .undefined
  date : JsVal := .undefined
  category : JsVal := .undefined
  niche_category : JsVal := .undefined
  exp_type : JsVal := .undefined
  trending : JsVal := .undefined
  featured : JsVal := .undefined
  romantic : JsVal := .undefined
  adventurous : JsVal := .undefined
  group_activity : JsVal := .undefined

/-- The application `Experience` model as `mapDbExperienceToModel` builds it
(field values are whatever runtime values the mapper produced). -/
structure Experience where
  id : JsVal := .undefined
  title : JsVal := .undefined
  description : JsVal := .undefined
  imageUrl : JsVal := .undefined
  price : JsVal := .undefined
  location : JsVal := .undefined
  latitude : JsVal := .undefined
  longitude : JsVal := .undefined
  duration : JsVal := .undefined
  participants : JsVal := .undefined
  date : JsVal := .undefined
  category : JsVal := .undefined
  nicheCategory : JsVal := .undefined
  exp_type : JsVal := .undefined
  trending : JsVal := .undefined
  featured : JsVal := .undefined
  romantic : JsVal := .undefined
  adventurous : JsVal := .undefined
  group : JsVal := .undefined

/-- Embedding of `mapDbExperienceToModel` (index.ts lines 24–44), field by
field: pass-through renames, truthiness-guarded `Number()` coercion for the
coordinates, and `|| []` / `|| false` defaults. -/
def mapDbExperienceToModel (item : DbRow) : Experience :=
  { id := item.id
    title := item.title
    description := item.description
    imageUrl := item.image_url
    price := item.price
    location := item.location
    latitude := if truthy item.latitude then jsToNumber item.latitude else .undefined
    longitude := if truthy item.longitude then jsToNumber item.longitude else .undefined
    duration := item.duration
    participants := item.participants
    date := item.date
    category := item.category
    nicheCategory := item.niche_category
    exp_type := jsOr item.exp_type (.arr [])
    trending := jsOr item.trending (.bool false)
    featured := jsOr item.featured (.bool false)
    romantic := jsOr item.romantic (.bool false)
    adventurous := jsOr item.adventurous (.bool false)
    group := jsOr item.group_activity (.bool false) }

/-- Names of the `Experience` model fields (§3 of the specification). -/
inductive ExpField where
  | id | title | description | imageUrl | price | location | latitude | longitude
  | duration | participants | date | category | nicheCategory | exp_type
  | trending | featured | romantic | adventurous | group
deriving DecidableEq

/-- Field accessor for `Experience`. -/
def Experience.get (e : Experience) : ExpField → JsVal
  | .id => e.id
  | .title => e.title
  | .description => e.description
  | .imageUrl => e.imageUrl
  | .price => e.price
  | .location => e.location
  | .latitude => e.latitude
  | .longitude => e.longitude
  | .duration => e.duration
  | .participants => e.participants
  | .date => e.date
  | .category => e.category
  | .nicheCategory => e.nicheCategory
  | .exp_type => e.exp_type
  | .trending => e.trending
  | .featured => e.featured
  | .romantic => e.romantic
  | .adventurous => e.adventurous
  | .group => e.group

/-- Names of the external row columns (the snake_case schema). -/
inductive DbField where
  | id | title | description | image_url | price | location | latitude | longitude
  | duration | participants | date | category | niche_category | exp_type
  | trending | featured | romantic | adventurous | group_activity
deriving DecidableEq

/-- Field accessor for `DbRow`. -/
def DbRow.get (r : DbRow) : DbField → JsVal
  | .id => r.id
  | .title => r.title
  | .description => r.description
  | .image_url => r.image_url
  | .price => r.price
  | .location => r.location
  | .latitude => r.latitude
  | .longitude => r.longitude
  | .duration => r.duration
  | .participants => r.participants
  | .date => r.date
  | .category => r.category
  | .niche_category => r.niche_category
  | .exp_type => r.exp_type
  | .trending => r.trending
  | .featured => r.featured
  | .romantic => r.romantic
  | .adventurous => r.adventurous
  | .group_activity => r.group_activity

/-- The model field each external column is renamed to. -/
def DbField.toExpField : DbField → ExpField
  | .id => .id
  | .title => .title
  | .description => .description
  | .image_url => .imageUrl
  | .price => .price
  | .location => .location
  | .latitude => .latitude
  | .longitude => .longitude
  | .duration => .duration
  | .participants => .participants
  | .date => .date
  | .category => .category
  | .niche_category => .nicheCategory
  | .exp_type => .exp_type
  | .trending => .trending
  | .featured => .featured
  | .romantic => .romantic
  | .adventurous => .adventurous
  | .group_activity => .group

/-- The row shape both `addExperience` (lines 96–113) and `importExperiences`
(lines 203–220) build for an insert: sixteen columns; no `id`, no `latitude`,
no `longitude` key is ever written. -/
structure InsertRow where
  title : JsVal := .undefined
  description : JsVal := .undefined
  image_url : JsVal := .undefined
  price : JsVal := .undefined
  location : JsVal := .undefined
  duration : JsVal := .undefined
  participants : JsVal := .undefined
  date : JsVal := .undefined
  category : JsVal := .undefined
  niche_category : JsVal := .undefined
  exp_type : JsVal := .undefined
  trending : JsVal := .undefined
  featured : JsVal := .undefined
  romantic : JsVal := .undefined
  adventurous : JsVal := .undefined
  group_activity : JsVal := .undefined

/-- The insert payload `addExperience` builds from an `Experience` value
(index.ts lines 96–113): plain renames plus `|| false` on the five flags. -/
def toInsertRow (experience : Experience) : InsertRow :=
  { title := experience.title
    description := experience.description
    image_url := experience.imageUrl
    price := experience.price
    location := experience.location
    duration := experience.duration
    participants := experience.participants
    date := experience.date
    category := experience.category
    niche_category := experience.nicheCategory
    exp_type := experience.exp_type
    trending := jsOr experience.trending (.bool false)
    featured := jsOr experience.featured (.bool false)
    romantic := jsOr experience.romantic (.bool false)
    adventurous := jsOr experience.adventurous (.bool false)
    group_activity := jsOr experience.group (.bool false) }

/-- Reading an `InsertRow` back through the external row shape: the keys the
payload never writes (`id`, `latitude`, `longitude`) read as `undefined`. -/
def insertRowToDbRow (p : InsertRow) : DbRow :=
  { title := p.title
    description := p.description
    image_url := p.image_url
    price := p.price
    location := p.location
    duration := p.duration
    participants := p.participants
    date := p.date
    category := p.category
    niche_category := p.niche_category
    exp_type := p.exp_type
    trending := p.trending
    featured := p.featured
    romantic := p.romantic
    adventurous := p.adventurous
    group_activity := p.group_activity }

/-- One imported JSON element mapped to the insert row shape
(`importExperiences`, index.ts lines 203–220). Property access on a
`null`/`undefined` element throws a `TypeError`, which the surrounding
`try` turns into a failed import. -/
def buildImportRow (exp : JsVal) : Except Unit InsertRow :=
  match exp with
  | .null => .error ()
  | .undefined => .error ()
  | _ => .ok
      { title := getF exp "title"
        description := getF exp "description"
        image_url := getF exp "imageUrl"
        price := getF exp "price"
        location := getF exp "location"
        duration := getF exp "duration"
        participants := getF exp "participants"
        date := getF exp "date"
        category := getF exp "category"
        niche_category := getF exp "nicheCategory"
        exp_type := getF exp "exp_type"
        trending := jsOr (getF exp "trending") (.bool false)
        featured := jsOr (getF exp "featured") (.bool false)
        romantic := jsOr (getF exp "romantic") (.bool false)
        adventurous := jsOr (getF exp "adventurous") (.bool false)
        group_activity := jsOr (getF exp "group") (.bool false) }

/-- An `Experience` value as the JSON object it serializes to (the shape a
round-tripped export presents to `importExperiences`). -/
def objOfExperience (e : Experience) : JsVal :=
  .obj [("id", e.id), ("title", e.title), ("description", e.description),
        ("imageUrl", e.imageUrl), ("price", e.price), ("location", e.location),
        ("latitude", e.latitude), ("longitude", e.longitude),
        ("duration", e.duration), ("participants", e.participants),
        ("date", e.date), ("category", e.category),
        ("nicheCategory", e.nicheCategory), ("exp_type", e.exp_type),
        ("trending", e.trending), ("featured", e.featured),
        ("romantic", e.romantic), ("adventurous", e.adventurous),
        ("group", e.group)]

/-- Recognizer for boolean runtime values. -/
def JsVal.isBool : JsVal → Bool
  | .bool _ => true
  | _ => false

/-- Recognizer for array runtime values. -/
def JsVal.isArr : JsVal → Bool
  | .arr _ => true
  | _ => false

/-- A well-typed external row in the sense of §3: the five classification
flags are stored booleans and the experience-type tag field is an array.
The remaining columns are unconstrained (the mapper passes them through). -/
def ValidRow (r : DbRow) : Prop :=
  r.trending.isBool = true ∧ r.featured.isBool = true ∧ r.romantic.isBool = true ∧
  r.adventurous.isBool = true ∧ r.group_activity.isBool = true ∧
  r.exp_type.isArr = true

/-- A `Partial<Experience>` argument to `updateExperience`. For each key,
`none` means the key is absent from the object; `some v` means the key is
present with runtime value `v` — which may itself be `JsVal.undefined`, the
TypeScript-legal case of a key explicitly set to `undefined`. -/
structure ExperienceUpdate where
  id : Option JsVal := none
  title : Option JsVal := none
  description : Option JsVal := none
  imageUrl : Option JsVal := none
  price : Option JsVal := none
  location : Option JsVal := none
  latitude : Option JsVal := none
  longitude : Option JsVal := none
  duration : Option JsVal := none
  participants : Option JsVal := none
  date : Option JsVal := none
  category : Option JsVal := none
  nicheCategory : Option JsVal := none
  exp_type : Option JsVal := none
  trending : Option JsVal := none
  featured : Option JsVal := none
  romantic : Option JsVal := none
  adventurous : Option JsVal := none
  group : Option JsVal := none

/-- Field accessor for `ExperienceUpdate`: the runtime value of reading the
key, before distinguishing absence from explicit `undefined`. -/
def ExperienceUpdate.get (u : ExperienceUpdate) : ExpField → Option JsVal
  | .id => u.id
  | .title => u.title
  | .description => u.description
  | .imageUrl => u.imageUrl
  | .price => u.price
  | .location => u.location
  | .latitude => u.latitude
  | .longitude => u.longitude
  | .duration => u.duration
  | .participants => u.participants
  | .date => u.date
  | .category => u.category
  | .nicheCategory => u.nicheCategory
  | .exp_type => u.exp_type
  | .trending => u.trending
  | .featured => u.featured
  | .romantic => u.romantic
  | .adventurous => u.adventurous
  | .group => u.group

/-- The sparse `updateData` object sent by `updateExperience`
(index.ts lines 135–152): for each column, `none` when the key was never
assigned, `some v` when it was. The source writes a column only when the
corresponding update field is `!== undefined`, and has no assignment line
at all for `id`, `latitude` or `longitude`. -/
structure UpdateData where
  title : Option JsVal := none
  description : Option JsVal := none
  image_url : Option JsVal := none
  price : Option JsVal := none
  location : Option JsVal := none
  duration : Option JsVal := none
  participants : Option JsVal := none
  date : Option JsVal := none
  category : Option JsVal := none
  niche_category : Option JsVal := none
  exp_type : Option JsVal := none
  trending : Option JsVal := none
  featured : Option JsVal := none
  romantic : Option JsVal := none
  adventurous : Option JsVal := none
  group_activity : Option JsVal := none

/-- Keep a provided value unless it reads as `undefined` (the
`updates.f !== undefined` guard). -/
def keepDefined : Option JsVal → Option JsVal
  | some .undefined => none
  | some v => some v
  | none => none

/-- Embedding of the `updateData` construction in `updateExperience`
(index.ts lines 135–152), line by line. -/
def mkUpdateData (updates : ExperienceUpdate) : UpdateData :=
  { title := keepDefined updates.title
    description := keepDefined updates.description
    image_url := keepDefined updates.imageUrl
    price := keepDefined updates.price
    location := keepDefined updates.location
    duration := keepDefined updates.duration
    participants := keepDefined updates.participants
    date := keepDefined updates.date
    category := keepDefined updates.category
    niche_category := keepDefined updates.nicheCategory
    exp_type := keepDefined updates.exp_type
    trending := keepDefined updates.trending
    featured := keepDefined updates.featured
    romantic := keepDefined updates.romantic
    adventurous := keepDefined updates.adventurous
    group_activity := keepDefined updates.group }

/-- Column accessor for the sparse payload, through the external column
names; the columns `updateExperience` never assigns read as absent. -/
def UpdateData.get (d : UpdateData) : DbField → Option JsVal
  | .id => none
  | .title => d.title
  | .description => d.description
  | .image_url => d.image_url
  | .price => d.price
  | .location => d.location
  | .latitude => none
  | .longitude => none
  | .duration => d.duration
  | .participants => d.participants
  | .date => d.date
  | .category => d.category
  | .niche_category => d.niche_category
  | .exp_type => d.exp_type
  | .trending => d.trending
  | .featured => d.featured
  | .romantic => d.romantic
  | .adventurous => d.adventurous
  | .group_activity => d.group_activity

/-- The JavaScript spread merge `{...exp, ...updates}` (index.ts line 164):
a key present in `updates` overwrites — even when its value is `undefined` —
and an absent key leaves the original field. -/
def mergeExperience (exp : Experience) (updates : ExperienceUpdate) : Experience :=
  { id := updates.id.getD exp.id
    title := updates.title.getD exp.title
    description := updates.description.getD exp.description
    imageUrl := updates.imageUrl.getD exp.imageUrl
    price := updates.price.getD exp.price
    location := updates.location.getD exp.location
    latitude := updates.latitude.getD exp.latitude
    longitude := updates.longitude.getD exp.longitude
    duration := updates.duration.getD exp.duration
    participants := updates.participants.getD exp.participants
    date := updates.date.getD exp.date
    category := updates.category.getD exp.category
    nicheCategory := updates.nicheCategory.getD exp.nicheCategory
    exp_type := updates.exp_type.getD exp.exp_type
    trending := updates.trending.getD exp.trending
    featured := updates.featured.getD exp.featured
    romantic := updates.romantic.getD exp.romantic
    adventurous := updates.adventurous.getD exp.adventurous
    group := updates.group.getD exp.group }

/-- Observable side effects of one operation, in order: remote table
operations, localStorage accesses of the `experiences` key, and toasts. -/
inductive Effect where
  | selectAll : Effect
  | selectById : String → Effect
  | selectByCategory : String → Effect
  | insertRows : List InsertRow → Effect
  | updateRow : String → UpdateData → Effect
  | deleteRow : String → Effect
  | storageRead : Effect
  | storageWrite : List Experience → Effect
  | toast : String → Effect

/-- Outcome oracle for the Supabase client: what each query shape returns
when issued. `Except.error` / `some msg` model a returned error object,
which the source converts into a thrown exception. -/
structure RemoteBehavior where
  selectAll : Except String (List DbRow)
  selectById : String → Except String (Option DbRow)
  selectByCategory : String → Except String (List DbRow)
  insertRows : List InsertRow → Option String
  updateRow : String → UpdateData → Option String
  deleteRow : String → Option String

/-- Contents of the `experiences` localStorage key: absent (or empty, which
`saved ?` treats the same), present but unparsable, or a previously cached
list — the only value the code itself ever writes there. -/
inductive StoredBlob where
  | absent : StoredBlob
  | corrupt : StoredBlob
  | cached : List Experience → StoredBlob

/-- Embedding of `getSavedExperiences` (index.ts lines 13–21): read the key,
parse it, and fall back to the built-in default list when the key is absent
or parsing throws. The default list comes from `./experiences`, a module
outside the reviewed sources, so it is passed in as a parameter
(modelled from the spec: §4.2, a built-in default list). -/
def getSavedExperiences (defaults : List Experience) (storage : StoredBlob) :
    List Experience × List Effect :=
  match storage with
  | .absent => (defaults, [.storageRead])
  | .corrupt => (defaults, [.storageRead])
  | .cached l => (l, [.storageRead])

/-- React state of `useExperiencesManager`: the in-memory list, the loading
flag and the error message. -/
structure ManagerState where
  experiences : List Experience := []
  isLoading : Bool := true
  error : Option String := none

/-- Structured result of the import and reset operations. -/
structure OpResult where
  success : Bool
  message : String

/-- Embedding of the `fetchExperiences` effect run on mount
(index.ts lines 53–88): clear the error, select all rows; on success map
them, store them in state and write the mapped list to localStorage; on
failure set the error message and substitute the saved list when it is
non-empty; finally clear the loading flag. -/
def fetchExperiences (b : RemoteBehavior) (storage : StoredBlob)
    (defaults : List Experience) (s : ManagerState) : ManagerState × List Effect :=
  let s1 : ManagerState := { s with isLoading := true, error := none }
  match b.selectAll with
  | .ok data =>
      let mapped := data.map mapDbExperienceToModel
      ({ s1 with experiences := mapped, isLoading := false },
       [.selectAll, .storageWrite mapped])
  | .error _ =>
      let saved := (getSavedExperiences defaults storage).1
      let s2 : ManagerState := { s1 with error := some "Failed to load experiences" }
      let s3 : ManagerState :=
        if saved.length > 0 then { s2 with experiences := saved } else s2
      ({ s3 with isLoading := false },
       .selectAll :: (getSavedExperiences defaults storage).2)

/-- Embedding of `updateExperience` (index.ts lines 132–171): build the
sparse payload, issue the remote update; on a remote error toast and
re-raise; on success merge the updates into the matching in-memory element.
Result: whether the call re-raised, the new state, and the effect trace. -/
def updateExperience (b : RemoteBehavior) (id : String)
    (updates : ExperienceUpdate) (s : ManagerState) :
    Except String Unit × ManagerState × List Effect :=
  let d := mkUpdateData updates
  match b.updateRow id d with
  | some err =>
      (.error err, s, [.updateRow id d, .toast "Failed to update experience"])
  | none =>
      (.ok (),
       { s with experiences :=
          s.experiences.map (fun exp =>
            if jsStrictEq exp.id (.str id) then mergeExperience exp updates else exp) },
       [.updateRow id d])

/-- Embedding of `importExperiences` (index.ts lines 194–252). The input is
the outcome of `JSON.parse(jsonString)` — a runtime value, or the message of
the `SyntaxError` it threw. A non-array value returns the typed failure
before any remote call; otherwise every element is mapped to an insert row
(throwing on nullish elements), the rows are bulk-inserted and the full
list is re-fetched; any thrown step lands in the catch, which returns a
failure result instead of raising. -/
def importExperiences (b : RemoteBehavior) (parsed : Except String JsVal)
    (s : ManagerState) : OpResult × ManagerState × List Effect :=
  match parsed with
  | .error e => ({ success := false, message := "Error importing: " ++ e }, s, [])
  | .ok (.arr items) =>
      match items.mapM buildImportRow with
      | .error _ =>
          ({ success := false, message := "Error importing: TypeError" }, s, [])
      | .ok rows =>
          match b.insertRows rows with
          | some err =>
              ({ success := false, message := "Error importing: " ++ err }, s,
               [.insertRows rows])
          | none =>
              match b.selectAll with
              | .error err =>
                  ({ success := false, message := "Error importing: " ++ err }, s,
                   [.insertRows rows, .selectAll])
              | .ok data =>
                  let mapped := data.map mapDbExperienceToModel
                  ({ success := true, message := "Experiences imported successfully" },
                   { s with experiences := mapped },
                   [.insertRows rows, .selectAll])
  | .ok _ =>
      ({ success := false, message := "Invalid format: expected an array" }, s, [])

/-- Embedding of `exportExperiences` (index.ts lines 255–274): fetch the
full list and map it (the source then serializes it with `JSON.stringify`);
on a remote error toast and re-raise. -/
def exportExperiences (b : RemoteBehavior) :
    Except String (List Experience) × List Effect :=
  match b.selectAll with
  | .ok data => (.ok (data.map mapDbExperienceToModel), [.selectAll])
  | .error err => (.error err, [.selectAll, .toast "Failed to export experiences"])

/-- Embedding of `resetExperiences` (index.ts lines 277–286): toast a
success message and return a success result; nothing else happens. -/
def resetExperiences (s : ManagerState) : OpResult × ManagerState × List Effect :=
  ({ success := true, message := "Experiences have been reset" }, s,
   [.toast "Experiences have been reset"])

/-- Embedding of the standalone `getAllExperiences` (index.ts lines
302–317): select all rows and map them; on a remote error fall back to the
saved list. -/
def getAllExperiences (b : RemoteBehavior) (storage : StoredBlob)
    (defaults : List Experience) : List Experience × List Effect :=
  match b.selectAll with
  | .ok data => (data.map mapDbExperienceToModel, [.selectAll])
  | .error _ =>
      ((getSavedExperiences defaults storage).1,
       .selectAll :: (getSavedExperiences defaults storage).2)

/-- Embedding of `getExperienceById` (index.ts lines 360–380): select the
row by id (`maybeSingle`), returning `none` when no row matches; on a remote
error fall back to searching the saved list with `exp.id === id`, the miss
yielding `undefined || null`, i.e. `none`. -/
def getExperienceById (b : RemoteBehavior) (storage : StoredBlob)
    (defaults : List Experience) (id : String) :
    Option Experience × List Effect :=
  match b.selectById id with
  | .ok (some row) => (some (mapDbExperienceToModel row), [.selectById id])
  | .ok none => (none, [.selectById id])
  | .error _ =>
      ((getSavedExperiences defaults storage).1.find?
         (fun exp => jsStrictEq exp.id (.str id)),
       .selectById id :: (getSavedExperiences defaults storage).2)

/-- One entry of the static category list imported from `./categories`, a
module outside the reviewed sources (modelled from the spec: §6, a fixed
external list of id/name pairs). -/
structure Category where
  id : String
  name : String

/-- The comparison `exp.category?.toLowerCase() === q` used when filtering
the saved list by category: only a string category can match (a nullish one
gives `undefined`, which never strictly equals a string). -/
def jsCategoryEq (v : JsVal) (q : String) : Bool :=
  match v with
  | .str s => s.toLower == q
  | _ => false

/-- Embedding of `getExperiencesByCategory` (index.ts lines 383–416):
resolve the category id against the static list and return `[]` at once on
a miss; otherwise query by the lower-cased display name and fall back to
filtering the saved list when the query errors or returns no rows. -/
def getExperiencesByCategory (cats : List Category) (b : RemoteBehavior)
    (storage : StoredBlob) (defaults : List Experience) (categoryId : String) :
    List Experience × List Effect :=
  match cats.find? (fun cat => cat.id == categoryId) with
  | none => ([], [])
  | some categoryObj =>
      let q := categoryObj.name.toLower
      match b.selectByCategory q with
      | .ok data =>
          if data.isEmpty then
            ((getSavedExperiences defaults storage).1.filter
               (fun exp => jsCategoryEq exp.category q),
             .selectByCategory q :: (getSavedExperiences defaults storage).2)
          else
            (data.map mapDbExperienceToModel, [.selectByCategory q])
      | .error _ =>
          ((getSavedExperiences defaults storage).1.filter
             (fun exp => jsCategoryEq exp.category q),
           .selectByCategory q :: (getSavedExperiences defaults storage).2)

/-- Whether a trace contains a write of the localStorage key. -/
def hasStorageWrite (es : List Effect) : Bool :=
  es.any (fun e => match e with | .storageWrite _ => true | _ => false)

/-- Whether a trace contains any remote-table operation. -/
def hasRemoteOp (es : List Effect) : Bool :=
  es.any (fun e =>
    match e with
    | .selectAll => true
    | .selectById _ => true
    | .selectByCategory _ => true
    | .insertRows _ => true
    | .updateRow _ _ => true
    | .deleteRow _ => true
    | _ => false)

/-- Whether a trace contains a bulk insert. -/
def hasInsert (es : List Effect) : Bool :=
  es.any (fun e => match e with | .insertRows _ => true | _ => false)

/-- A remote behavior where every query succeeds and a select of the full
table returns `rows`. -/
def okBehavior (rows : List DbRow) : RemoteBehavior :=
  { selectAll := .ok rows
    selectById := fun _ => .ok none
    selectByCategory := fun _ => .ok rows
    insertRows := fun _ => none
    updateRow := fun _ _ => none
    deleteRow := fun _ => none }

/-- A remote behavior where every query fails with a network error. -/
def failBehavior : RemoteBehavior :=
  { selectAll := .error "network"
    selectById := fun _ => .error "network"
    selectByCategory := fun _ => .error "network"
    insertRows := fun _ => some "network"
    updateRow := fun _ _ => some "network"
    deleteRow := fun _ => some "network" }

/-- A valid external row used as a concrete test vector: it carries an id
and both coordinates, boolean flags and an array tag field. -/
def sampleRow : DbRow :=
  { id := .str "abc", title := .str "T", latitude := .num 10, longitude := .num 20,
    trending := .bool true, featured := .bool false, romantic := .bool false,
    adventurous := .bool false, group_activity := .bool false,
    exp_type := .arr [] }

theorem jsOr_truthy {a : JsVal} (b : JsVal) (h : truthy a = true) : jsOr a b = a := by
  simp [jsOr, h]

theorem jsOr_falsy {a : JsVal} (b : JsVal) (h : truthy a = false) : jsOr a b = b := by
  simp [jsOr, h]

theorem isBool_exists {v : JsVal} (h : v.isBool = true) : ∃ b, v = .bool b := by
  cases v <;> simp [JsVal.isBool] at h
  exact ⟨_, rfl⟩

theorem truthy_of_isArr {v : JsVal} (h : v.isArr = true) : truthy v = true := by
  cases v <;> simp [JsVal.isArr] at h
  rfl

theorem jsOrFalse_double {b : Bool} :
    jsOr (jsOr (.bool b) (.bool false)) (.bool false) = .bool b := by
  cases b <;> rfl

/-- Behavior of `a || false` as the mapper applies it to a flag column. -/
theorem jsOrFalse_spec (a : JsVal) :
    jsOr a (.bool false) ≠ JsVal.undefined ∧
    (a = JsVal.undefined → jsOr a (.bool false) = JsVal.bool false) ∧
    (truthy a = false → jsOr a (.bool false) = JsVal.bool false) ∧
    (truthy a = true → jsOr a (.bool false) = a) := by
  refine ⟨?_, ?_, fun h => jsOr_falsy _ h, fun h => jsOr_truthy _ h⟩
  · cases ht : truthy a with
    | true =>
        rw [jsOr_truthy _ ht]
        intro hu
        rw [hu] at ht
        simp [truthy] at ht
    | false =>
        rw [jsOr_falsy _ ht]
        intro hu
        exact JsVal.noConfusion hu
  · intro hu
    subst hu
    rfl

theorem keepDefined_eq_some {o : Option JsVal} {v : JsVal} :
    keepDefined o = some v ↔ o = some v ∧ v ≠ JsVal.undefined := by
  cases o with
  | none => simp [keepDefined]
  | some w => cases w <;> cases v <;> simp [keepDefined]

/-- C3 (amended): the mapper converts a geographic coordinate field to its
numeric conversion exactly when the field is present with a truthy value;
when the field is absent — or present but falsy, such as `0`, `""` or
`null` — the output field is left `undefined`. -/
theorem mapDb_coordinate_truthy_coercion (item : DbRow) :
    (truthy item.latitude = true →
      (mapDbExperienceToModel item).latitude = jsToNumber item.latitude) ∧
    (truthy item.latitude = false →
      (mapDbExperienceToModel item).latitude = JsVal.undefined) ∧
    (item.latitude = JsVal.undefined →
      (mapDbExperienceToModel item).latitude = JsVal.undefined) ∧
    (truthy item.longitude = true →
      (mapDbExperienceToModel item).longitude = jsToNumber item.longitude) ∧
    (truthy item.longitude = false →
      (mapDbExperienceToModel item).longitude = JsVal.undefined) ∧
    (item.longitude = JsVal.undefined →
      (mapDbExperienceToModel item).longitude = JsVal.undefined) := by
  refine ⟨fun h => ?_, fun h => ?_, fun h => ?_, fun h => ?_, fun h => ?_, fun h => ?_⟩
  · simp [mapDbExperienceToModel, h]
  · simp [mapDbExperienceToModel, h]
  · rw [mapDbExperienceToModel, h]
    rfl
  · simp [mapDbExperienceToModel, h]
  · simp [mapDbExperienceToModel, h]
  · rw [mapDbExperienceToModel, h]
    rfl

/-- C3 (witness): a row whose latitude column holds the number 7 maps to an
experience with numeric latitude 7. -/
theorem mapDb_coordinate_truthy_coercion_witness :
    (mapDbExperienceToModel { latitude := JsVal.num 7 }).latitude = JsVal.num 7 := by
  simpa using (mapDb_coordinate_truthy_coercion { latitude := JsVal.num 7 }).1 rfl

/-- C3 (counterexample): the claim states a present coordinate is always
converted; but with latitude present and equal to the number 0 — a falsy
value — the mapper leaves the output `undefined` instead of `Number(0) = 0`. -/
theorem mapDb_coordinate_present_zero_counterexample :
    ({ latitude := JsVal.num 0 } : DbRow).latitude = JsVal.num 0 ∧
    jsToNumber ({ latitude := JsVal.num 0 } : DbRow).latitude = JsVal.num 0 ∧
    (mapDbExperienceToModel { latitude := JsVal.num 0 }).latitude = JsVal.undefined ∧
    JsVal.undefined ≠ JsVal.num 0 := by
  refine ⟨rfl, rfl, rfl, fun h => JsVal.noConfusion h⟩

/-- C4 (amended): each of the five flags the mapper produces is never
`undefined`; it is `false` whenever the source column is absent, and more
generally whenever the column value is falsy; a truthy column value is
passed through unchanged (so the flag is a boolean whenever the column is
boolean or absent, but a truthy non-boolean column value survives as-is). -/
theorem mapDb_flags_never_undefined_default_false (item : DbRow) :
    ((mapDbExperienceToModel item).trending ≠ JsVal.undefined ∧
      (item.trending = JsVal.undefined →
        (mapDbExperienceToModel item).trending = JsVal.bool false) ∧
      (truthy item.trending = false →
        (mapDbExperienceToModel item).trending = JsVal.bool false) ∧
      (truthy item.trending = true →
        (mapDbExperienceToModel item).trending = item.trending)) ∧
    ((mapDbExperienceToModel item).featured ≠ JsVal.undefined ∧
      (item.featured = JsVal.undefined →
        (mapDbExperienceToModel item).featured = JsVal.bool false) ∧
      (truthy item.featured = false →
        (mapDbExperienceToModel item).featured = JsVal.bool false) ∧
      (truthy item.featured = true →
        (mapDbExperienceToModel item).featured = item.featured)) ∧
    ((mapDbExperienceToModel item).romantic ≠ JsVal.undefined ∧
      (item.romantic = JsVal.undefined →
        (mapDbExperienceToModel item).romantic = JsVal.bool false) ∧
      (truthy item.romantic = false →
        (mapDbExperienceToModel item).romantic = JsVal.bool false) ∧
      (truthy item.romantic = true →
        (mapDbExperienceToModel item).romantic = item.romantic)) ∧
    ((mapDbExperienceToModel item).adventurous ≠ JsVal.undefined ∧
      (item.adventurous = JsVal.undefined →
        (mapDbExperienceToModel item).adventurous = JsVal.bool false) ∧
      (truthy item.adventurous = false →
        (mapDbExperienceToModel item).adventurous = JsVal.bool false) ∧
      (truthy item.adventurous = true →
        (mapDbExperienceToModel item).adventurous = item.adventurous)) ∧
    ((mapDbExperienceToModel item).group ≠ JsVal.undefined ∧
      (item.group_activity = JsVal.undefined →
        (mapDbExperienceToModel item).group = JsVal.bool false) ∧
      (truthy item.group_activity = false →
        (mapDbExperienceToModel item).group = JsVal.bool false) ∧
      (truthy item.group_activity = true →
        (mapDbExperienceToModel item).group = item.group_activity)) := by
  refine ⟨?_, ?_, ?_, ?_, ?_⟩ <;>
    simpa [mapDbExperienceToModel] using jsOrFalse_spec _

/-- C4 (witness): a row with the trending column absent maps to an
experience whose trending flag is the boolean `false`. -/
theorem mapDb_flags_never_undefined_default_false_witness :
    (mapDbExperienceToModel ({} : DbRow)).trending = JsVal.bool false :=
  (mapDb_flags_never_undefined_default_false {}).1.2.1 rfl

/-- C4 (counterexample): the claim says every produced flag is a boolean;
but a truthy non-boolean column value, here the string `"yes"`, is passed
through `|| false` unchanged, so the produced flag is a string. -/
theorem mapDb_flag_passthrough_non_boolean :
    (mapDbExperienceToModel { trending := JsVal.str "yes" }).trending
      = JsVal.str "yes" ∧
    JsVal.isBool (mapDbExperienceToModel
      { trending := JsVal.str "yes" }).trending = false := ⟨rfl, rfl⟩

/-- C9: for every state, `resetExperiences` reports success with the reset
message, leaves the in-memory list and the whole manager state unchanged,
and performs no remote operation and no localStorage write — it restores
nothing. -/
theorem resetExperiences_reports_success_changes_nothing (s : ManagerState) :
    (resetExperiences s).1.success = true ∧
    (resetExperiences s).1.message = "Experiences have been reset" ∧
    (resetExperiences s).2.1 = s ∧
    hasRemoteOp (resetExperiences s).2.2 = false ∧
    hasStorageWrite (resetExperiences s).2.2 = false :=
  ⟨rfl, rfl, rfl, rfl, rfl⟩

/-- C10: when the requested category id matches no entry of the static
categories list, `getExperiencesByCategory` returns the empty list with an
empty effect trace — no remote query and no localStorage access. -/
theorem getExperiencesByCategory_unknown_returns_empty (cats : List Category)
    (b : RemoteBehavior) (storage : StoredBlob) (defaults : List Experience)
    (categoryId : String) (h : ∀ cat ∈ cats, cat.id ≠ categoryId) :
    getExperiencesByCategory cats b storage defaults categoryId = ([], []) := by
  have hf : cats.find? (fun cat => cat.id == categoryId) = none := by
    rw [List.find?_eq_none]
    intro x hx
    simpa using h x hx
  simp [getExperiencesByCategory, hf]

/-- C10 (witness): the id `"nope"` matches no entry of a one-element
category list, so the lookup returns the empty list and does nothing. -/
theorem getExperiencesByCategory_unknown_returns_empty_witness :
    getExperiencesByCategory [⟨"adventure", "Adventure"⟩] failBehavior
      .absent [] "nope" = ([], []) :=
  getExperiencesByCategory_unknown_returns_empty _ _ _ _ _
    (by intro cat hc; simp at hc; simp [hc])

/-- C7: when the initial fetch-all fails and the localStorage key holds a
non-empty previously cached list, the manager ends the fetch with the
loading flag cleared, the error message set, and the in-memory list equal
to the cached list (hence of the same length). -/
theorem fetch_failure_falls_back_to_cached (b : RemoteBehavior)
    (l defaults : List Experience) (s : ManagerState) (e : String)
    (hb : b.selectAll = .error e) (hl : l ≠ []) :
    (fetchExperiences b (.cached l) defaults s).1.isLoading = false ∧
    (fetchExperiences b (.cached l) defaults s).1.error
      = some "Failed to load experiences" ∧
    (fetchExperiences b (.cached l) defaults s).1.experiences = l := by
  have hlen : 0 < l.length := List.length_pos.mpr hl
  refine ⟨?_, ?_, ?_⟩ <;>
    simp [fetchExperiences, hb, getSavedExperiences, hlen]

/-- C7 (witness): with three cached records and a failing remote, the
manager ends with loading false, the error set, and the three records. -/
theorem fetch_failure_falls_back_to_cached_witness :
    (fetchExperiences failBehavior (.cached [{}, {}, {}]) [] {}).1.experiences
      = [{}, {}, {}] :=
  (fetch_failure_falls_back_to_cached failBehavior [{}, {}, {}] [] {} "network"
    rfl (by simp)).2.2

/-- C6: when the remote lookup reports no row for the identifier — or the
remote call fails and no element of the saved fallback list has that id —
`getExperienceById` returns `none` rather than an error. -/
theorem getExperienceById_missing_returns_none (b : RemoteBehavior)
    (storage : StoredBlob) (defaults : List Experience) (id : String)
    (h : b.selectById id = .ok none ∨
      ((∃ e, b.selectById id = .error e) ∧
        ∀ exp ∈ (getSavedExperiences defaults storage).1,
          jsStrictEq exp.id (.str id) = false)) :
    (getExperienceById b storage defaults id).1 = none := by
  rcases h with h | ⟨⟨e, he⟩, hall⟩
  · simp [getExperienceById, h]
  · simp only [getExperienceById, he]
    rw [List.find?_eq_none]
    intro x hx
    simp [hall x hx]

/-- C6 (witness): a remote behavior reporting no matching row makes the
lookup of `"ghost"` return `none`. -/
theorem getExperienceById_missing_returns_none_witness :
    (getExperienceById (okBehavior []) .absent [] "ghost").1 = none :=
  getExperienceById_missing_returns_none (okBehavior []) .absent [] "ghost"
    (Or.inl rfl)

/-- C5: whenever the parsed import payload is not an array — including the
case where `JSON.parse` itself threw — `importExperiences` returns a result
with `success = false`, leaves the manager state unchanged, and performs no
effect at all (in particular no insert against the remote store); the
function returns this result instead of raising. -/
theorem importExperiences_non_array_no_insert (b : RemoteBehavior)
    (parsed : Except String JsVal) (s : ManagerState)
    (h : ∀ items, parsed ≠ .ok (.arr items)) :
    (importExperiences b parsed s).1.success = false ∧
    (importExperiences b parsed s).2.1 = s ∧
    (importExperiences b parsed s).2.2 = [] ∧
    hasInsert (importExperiences b parsed s).2.2 = false := by
  match parsed with
  | .error e => exact ⟨rfl, rfl, rfl, rfl⟩
  | .ok .undefined => exact ⟨rfl, rfl, rfl, rfl⟩
  | .ok .null => exact ⟨rfl, rfl, rfl, rfl⟩
  | .ok .nan => exact ⟨rfl, rfl, rfl, rfl⟩
  | .ok (.bool b0) => exact ⟨rfl, rfl, rfl, rfl⟩
  | .ok (.num q) => exact ⟨rfl, rfl, rfl, rfl⟩
  | .ok (.str t) => exact ⟨rfl, rfl, rfl, rfl⟩
  | .ok (.obj fs) => exact ⟨rfl, rfl, rfl, rfl⟩
  | .ok (.arr items) => exact absurd rfl (h items)

/-- C5 (witness): a payload that parses to a plain object is rejected with
`success = false` and an empty effect trace. -/
theorem importExperiences_non_array_no_insert_witness :
    (importExperiences failBehavior (.ok (.obj [])) {}).1.success = false ∧
    (importExperiences failBehavior (.ok (.obj [])) {}).2.2 = [] :=
  ⟨(importExperiences_non_array_no_insert failBehavior (.ok (.obj [])) {}
      (fun items hi => by simp at hi)).1,
   (importExperiences_non_array_no_insert failBehavior (.ok (.obj [])) {}
      (fun items hi => by simp at hi)).2.2.1⟩

/-- C8 (amended): the manager's initial fetch is the only operation that
writes the localStorage key — on success its trace is exactly the select
followed by a write of the whole mapped list; the standalone
`getAllExperiences`, the import re-fetch and the export fetch never write
the key, successful or not. -/
theorem storageWrite_only_in_manager_fetch (b : RemoteBehavior)
    (storage : StoredBlob) (defaults : List Experience) (s : ManagerState)
    (data : List DbRow) (hb : b.selectAll = .ok data) :
    (fetchExperiences b storage defaults s).2
      = [.selectAll, .storageWrite (data.map mapDbExperienceToModel)] ∧
    (∀ b2 storage2 defaults2,
      hasStorageWrite (getAllExperiences b2 storage2 defaults2).2 = false) ∧
    (∀ b2 parsed s2,
      hasStorageWrite (importExperiences b2 parsed s2).2.2 = false) ∧
    (∀ b2, hasStorageWrite (exportExperiences b2).2 = false) := by
  refine ⟨by simp [fetchExperiences, hb], ?_, ?_, ?_⟩
  · intro b2 storage2 defaults2
    cases hb2 : b2.selectAll <;> cases storage2 <;>
      simp [getAllExperiences, hb2, getSavedExperiences, hasStorageWrite]
  · intro b2 parsed s2
    match parsed with
    | .error e => rfl
    | .ok .undefined => rfl
    | .ok .null => rfl
    | .ok .nan => rfl
    | .ok (.bool b0) => rfl
    | .ok (.num q) => rfl
    | .ok (.str t) => rfl
    | .ok (.obj fs) => rfl
    | .ok (.arr items) =>
        show hasStorageWrite (importExperiences b2 (.ok (.arr items)) s2).2.2 = false
        rw [importExperiences]
        split
        · rfl
        · split
          · rfl
          · split
            · rfl
            · rfl
  · intro b2
    cases hb2 : b2.selectAll <;> simp [exportExperiences, hb2, hasStorageWrite]

/-- C8 (witness): with a remote returning one row, the manager's initial
fetch ends with a select followed by a localStorage write of the mapped
list. -/
theorem storageWrite_only_in_manager_fetch_witness :
    (fetchExperiences (okBehavior [{}]) .absent [] {}).2
      = [.selectAll, .storageWrite [mapDbExperienceToModel {}]] :=
  (storageWrite_only_in_manager_fetch (okBehavior [{}]) .absent [] {} [{}] rfl).1

/-- C8 (counterexample): the claim states every successful full-list fetch
writes the localStorage key; but the standalone `getAllExperiences`
succeeds — it returns the mapped row — while its trace contains no
localStorage write. -/
theorem getAllExperiences_success_no_storageWrite :
    (getAllExperiences (okBehavior [{}]) .absent []).1
      = [mapDbExperienceToModel {}] ∧
    hasStorageWrite (getAllExperiences (okBehavior [{}]) .absent []).2
      = false := ⟨rfl, rfl⟩

/-- C2 (amended): on a successful remote update, the sparse payload holds a
column exactly when it is one of the sixteen updatable columns (never `id`,
`latitude` or `longitude`, which the code has no assignment lines for) and
the corresponding update key is present with a non-`undefined` value; the
in-memory merge rewrites only the element whose id matches, and within it
leaves every field whose key is absent from the partial update unchanged
(a key present with value `undefined` is omitted from the payload yet still
overwrites in the spread merge). -/
theorem updateExperience_sparse_payload_and_frame (b : RemoteBehavior)
    (id : String) (updates : ExperienceUpdate) (s : ManagerState)
    (hb : b.updateRow id (mkUpdateData updates) = none) :
    (∀ g : DbField, ∀ v : JsVal,
      ((mkUpdateData updates).get g = some v ↔
        (g ≠ .id ∧ g ≠ .latitude ∧ g ≠ .longitude ∧
         updates.get g.toExpField = some v ∧ v ≠ .undefined))) ∧
    (updateExperience b id updates s).2.1.experiences
      = s.experiences.map (fun exp =>
          if jsStrictEq exp.id (.str id) then mergeExperience exp updates
          else exp) ∧
    (∀ exp : Experience, jsStrictEq exp.id (.str id) = false →
      (if jsStrictEq exp.id (.str id) then mergeExperience exp updates
       else exp) = exp) ∧
    (∀ exp : Experience, ∀ f : ExpField, updates.get f = none →
      (mergeExperience exp updates).get f = exp.get f) := by
  refine ⟨?_, ?_, ?_, ?_⟩
  · intro g v
    cases g <;>
      simp [UpdateData.get, mkUpdateData, DbField.toExpField,
            ExperienceUpdate.get, keepDefined_eq_some]
  · simp [updateExperience, hb]
  · intro exp h
    simp [h]
  · intro exp f hf
    cases f <;>
      simp_all [mergeExperience, ExperienceUpdate.get, Experience.get]

/-- C2 (witness): on a successful remote update of id `"1"`, the in-memory
list is the element-wise conditional merge. -/
theorem updateExperience_sparse_payload_and_frame_witness :
    (updateExperience (okBehavior []) "1" { title := some (JsVal.str "New") }
        { experiences := [{ id := JsVal.str "1" }] }).2.1.experiences
      = [({ id := JsVal.str "1" } : Experience)].map (fun exp =>
          if jsStrictEq exp.id (.str "1")
          then mergeExperience exp { title := some (JsVal.str "New") }
          else exp) :=
  (updateExperience_sparse_payload_and_frame (okBehavior []) "1"
    { title := some (JsVal.str "New") }
    { experiences := [{ id := JsVal.str "1" }] } rfl).2.1

/-- C2 (counterexample): against the claim, a provided `latitude` is not
included in the payload (there is no assignment line for it), and a `title`
key present with value `undefined` is also excluded from the payload yet
changes the merged element's title from `"Old"` to `undefined`. -/
theorem updateExperience_payload_frame_counterexample :
    ({ latitude := some (JsVal.num 5), title := some JsVal.undefined }
        : ExperienceUpdate).latitude = some (JsVal.num 5) ∧
    (mkUpdateData
        { latitude := some (JsVal.num 5), title := some JsVal.undefined }).get
      .latitude = none ∧
    (mkUpdateData
        { latitude := some (JsVal.num 5), title := some JsVal.undefined }).get
      .title = none ∧
    (mergeExperience { id := JsVal.str "1", title := JsVal.str "Old" }
        { latitude := some (JsVal.num 5), title := some JsVal.undefined }).title
      = JsVal.undefined ∧
    JsVal.undefined ≠ JsVal.str "Old" :=
  ⟨rfl, rfl, rfl, rfl, fun h => JsVal.noConfusion h⟩

/-- C1 (amended): for every valid external row (boolean flags stored as
booleans, tag field stored as an array), mapping through the model and back
to the insert payload built by `addExperience` preserves every §3 field
except `id`, `latitude` and `longitude`, which the payload omits entirely
(they read back as `undefined`); and the payload `importExperiences` builds
from the JSON object form of an experience is the same payload. -/
theorem mapThenInsertPayload_preserves_all_but_id_lat_long (r : DbRow)
    (hr : ValidRow r) :
    (∀ g : DbField, g ≠ .id → g ≠ .latitude → g ≠ .longitude →
      (insertRowToDbRow (toInsertRow (mapDbExperienceToModel r))).get g
        = r.get g) ∧
    (insertRowToDbRow (toInsertRow (mapDbExperienceToModel r))).get .id
      = JsVal.undefined ∧
    (insertRowToDbRow (toInsertRow (mapDbExperienceToModel r))).get .latitude
      = JsVal.undefined ∧
    (insertRowToDbRow (toInsertRow (mapDbExperienceToModel r))).get .longitude
      = JsVal.undefined ∧
    (∀ e : Experience,
      buildImportRow (objOfExperience e) = .ok (toInsertRow e)) := by
  obtain ⟨h1, h2, h3, h4, h5, h6⟩ := hr
  obtain ⟨b1, hb1⟩ := isBool_exists h1
  obtain ⟨b2, hb2⟩ := isBool_exists h2
  obtain ⟨b3, hb3⟩ := isBool_exists h3
  obtain ⟨b4, hb4⟩ := isBool_exists h4
  obtain ⟨b5, hb5⟩ := isBool_exists h5
  refine ⟨?_, rfl, rfl, rfl, fun e => rfl⟩
  intro g hg1 hg2 hg3
  cases g with
  | id => exact absurd rfl hg1
  | latitude => exact absurd rfl hg2
  | longitude => exact absurd rfl hg3
  | title => rfl
  | description => rfl
  | image_url => rfl
  | price => rfl
  | location => rfl
  | duration => rfl
  | participants => rfl
  | date => rfl
  | category => rfl
  | niche_category => rfl
  | exp_type =>
      show jsOr r.exp_type (.arr []) = r.exp_type
      exact jsOr_truthy _ (truthy_of_isArr h6)
  | trending =>
      show jsOr (jsOr r.trending (.bool false)) (.bool false) = r.trending
      rw [hb1]
      exact jsOrFalse_double
  | featured =>
      show jsOr (jsOr r.featured (.bool false)) (.bool false) = r.featured
      rw [hb2]
      exact jsOrFalse_double
  | romantic =>
      show jsOr (jsOr r.romantic (.bool false)) (.bool false) = r.romantic
      rw [hb3]
      exact jsOrFalse_double
  | adventurous =>
      show jsOr (jsOr r.adventurous (.bool false)) (.bool false) = r.adventurous
      rw [hb4]
      exact jsOrFalse_double
  | group_activity =>
      show jsOr (jsOr r.group_activity (.bool false)) (.bool false)
        = r.group_activity
      rw [hb5]
      exact jsOrFalse_double

/-- C1 (witness): the round trip preserves the title of a concrete valid
row. -/
theorem mapThenInsertPayload_preserves_title_witness :
    (insertRowToDbRow (toInsertRow (mapDbExperienceToModel sampleRow))).get
      .title = sampleRow.get .title :=
  (mapThenInsertPayload_preserves_all_but_id_lat_long sampleRow
    ⟨rfl, rfl, rfl, rfl, rfl, rfl⟩).1 .title
    (by decide) (by decide) (by decide)

/-- C1 (counterexample): the claim states the round trip preserves `id`,
`latitude` and `longitude`; but the insert payload has no key for any of
them, so a valid row carrying all three reads them back as `undefined`. -/
theorem mapThenInsertPayload_drops_id_and_coordinates :
    sampleRow.id = JsVal.str "abc" ∧
    sampleRow.latitude = JsVal.num 10 ∧
    sampleRow.longitude = JsVal.num 20 ∧
    (insertRowToDbRow (toInsertRow (mapDbExperienceToModel sampleRow))).get
      .id = JsVal.undefined ∧
    (insertRowToDbRow (toInsertRow (mapDbExperienceToModel sampleRow))).get
      .latitude = JsVal.undefined ∧
    (insertRowToDbRow (toInsertRow (mapDbExperienceToModel sampleRow))).get
      .longitude = JsVal.undefined ∧
    JsVal.undefined ≠ JsVal.str "abc" ∧
    JsVal.undefined ≠ JsVal.num 10 ∧
    JsVal.undefined ≠ JsVal.num 20 := by
  refine ⟨rfl, rfl, rfl, rfl, rfl, rfl, ?_, ?_, ?_⟩ <;>
    exact fun h => JsVal.noConfusion h

